import Mathlib

/-!
Verification development for the single-endpoint inference gateway of the
notebook `2_Deploying_ML_Models.ipynb`.  The handler decodes the uploaded
bytes with the PIL codec, applies the torchvision pipeline
Resize(256) / CenterCrop(224) / ToTensor / Normalize(mean, std), runs the
pretrained classifier under no-grad, and answers with the arg-max index as
JSON.  The handler itself contains no try/except: any exception raised by a
library call escapes it and is turned into a 500 response by the framework.

Machine reals are modelled by `Rat`; pixel bytes by `Nat`.  The pretrained
network and the image codecs are external artefacts, so the forward pass and
the byte-level decoder appear as explicit parameters of the handler; a
concrete minimal decoder (`pilDecode`) instantiates the decode-failure
scenarios.
-/

namespace MLDeploy

/-- A decoded PIL image: a pixel grid with `channels` planes (`L` mode gives
1 channel, `RGB` 3, `RGBA` 4).  `px c y x` is the byte value of channel `c`
at row `y`, column `x`. -/
structure PILImage where
  width : Nat
  height : Nat
  channels : Nat
  px : Nat → Nat → Nat → Nat

/-- A CHW tensor of rationals, as produced by `ToTensor` and `Normalize`. -/
structure TVTensor where
  channels : Nat
  height : Nat
  width : Nat
  px : Nat → Nat → Nat → Rat

/-- A batched NCHW tensor, as produced by `unsqueeze(0)`. -/
structure BTensor where
  batch : Nat
  channels : Nat
  height : Nat
  width : Nat
  px : Nat → Nat → Nat → Nat → Rat

/-- The Python exceptions the handler body can raise.  None of them is
caught by the handler. -/
inductive PredictError where
  /-- `PIL.UnidentifiedImageError` raised by `Image.open` on bytes that are
  not a valid image (in particular on an empty payload). -/
  | unidentifiedImage : PredictError
  /-- `RuntimeError` raised by `Normalize` when the tensor has
  `channels` planes but the mean/std constants have 3 entries (in-place
  subtraction cannot broadcast 1 or 4 channels against 3). -/
  | normalizeBroadcast : Nat → PredictError
  /-- `IndexError` raised by `argmax` over an empty dimension. -/
  | emptyArgmax : PredictError
deriving DecidableEq

/-- Outcome of one call of the handler: either a response it returned
(status code and the `predicted_class` JSON value), or an exception that
escaped it. -/
inductive HandlerResult where
  | response : Nat → Nat → HandlerResult
  | raised : PredictError → HandlerResult
deriving DecidableEq

/-- Normalization means of `transforms.Normalize`. -/
def meanConsts : List Rat := [0.485, 0.456, 0.406]

/-- Normalization standard deviations of `transforms.Normalize`. -/
def stdConsts : List Rat := [0.229, 0.224, 0.225]

/-- Resize of `transforms.Resize(size)` with an integer size: the shorter
edge becomes `size`, the longer one `size * long / short` truncated to an
integer.  The resampling kernel (bilinear, library-internal floating point)
is abstracted by coordinate sampling; no claim depends on the kernel
weights, only on the output geometry. -/
def resize (size : Nat) (img : PILImage) : PILImage :=
  if img.width ≤ img.height then
    { width := size
      height := size * img.height / img.width
      channels := img.channels
      px := fun c y x =>
        img.px c (y * img.height / (size * img.height / img.width))
          (x * img.width / size) }
  else
    { width := size * img.width / img.height
      height := size
      channels := img.channels
      px := fun c y x =>
        img.px c (y * img.height / size)
          (x * img.width / (size * img.width / img.height)) }

/-- Python `round(n / 2.0)` for a natural `n` (round half to even), used by
`center_crop` for the crop offsets. -/
def halfRoundEven (n : Nat) : Nat :=
  if n % 4 = 3 then n / 2 + 1 else n / 2

/-- Crop of `transforms.CenterCrop(size)`.  After `Resize(256)` both edges
are at least 256, so the padding branch torchvision has for images smaller
than the crop is unreachable in this pipeline and is not modelled. -/
def centerCrop (size : Nat) (img : PILImage) : PILImage :=
  { width := size
    height := size
    channels := img.channels
    px := fun c y x =>
      img.px c (halfRoundEven (img.height - size) + y)
        (halfRoundEven (img.width - size) + x) }

/-- Conversion of `transforms.ToTensor` on a byte-valued image: CHW layout,
every byte divided by 255. -/
def toTensor (img : PILImage) : TVTensor :=
  { channels := img.channels
    height := img.height
    width := img.width
    px := fun c y x => (img.px c y x : Rat) / 255 }

/-- The tensor `transforms.Normalize` produces when the channel count
matches the three constants: per channel `(value - mean) / std`. -/
def normalizeOk (mean std : List Rat) (t : TVTensor) : TVTensor :=
  { channels := t.channels
    height := t.height
    width := t.width
    px := fun c y x => (t.px c y x - mean.getD c 0) / std.getD c 0 }

/-- Transform `transforms.Normalize(mean, std)`: succeeds only when the
tensor has exactly as many channels as the constant lists (three here); any
other channel count makes the in-place broadcast fail with a
`RuntimeError`. -/
def normalizeT (mean std : List Rat) (t : TVTensor) :
    Except PredictError TVTensor :=
  if t.channels = mean.length then
    Except.ok (normalizeOk mean std t)
  else
    Except.error (PredictError.normalizeBroadcast t.channels)

/-- The first three stages of the composed pipeline (resize, center-crop,
to-tensor), which are total. -/
def pipelineTensor (img : PILImage) : TVTensor :=
  toTensor (centerCrop 224 (resize 256 img))

/-- The composed `transform` of the notebook: Resize(256), CenterCrop(224),
ToTensor, Normalize(meanConsts, stdConsts). -/
def transform (img : PILImage) : Except PredictError TVTensor :=
  normalizeT meanConsts stdConsts (pipelineTensor img)

/-- The `unsqueeze(0)` call: add a batch dimension of size one. -/
def unsqueeze (t : TVTensor) : BTensor :=
  { batch := 1
    channels := t.channels
    height := t.height
    width := t.width
    px := fun _ c y x => t.px c y x }

/-- First-occurrence arg-max over a list of scores, as `torch.argmax`
computes it: the least index holding the maximal value. -/
def argmaxIdx : List Rat → Nat
  | [] => 0
  | [_] => 0
  | x :: y :: t =>
    let j := argmaxIdx (y :: t)
    if x < (y :: t).getD j 0 then j + 1 else 0

/-- The handler body after `Image.open` succeeded: apply `transform`,
`unsqueeze(0)`, run the forward pass `fwd` (the pretrained network is an
external artefact, hence a parameter), and take the first-row arg-max.
A transform failure propagates as a raised exception; `torch.argmax` on an
empty score vector raises as well. -/
def predictCore (fwd : BTensor → List Rat) (image : PILImage) :
    HandlerResult :=
  match transform image with
  | Except.error e => HandlerResult.raised e
  | Except.ok t =>
    let out := fwd (unsqueeze t)
    if out.isEmpty then HandlerResult.raised PredictError.emptyArgmax
    else HandlerResult.response 200 (argmaxIdx out)

/-- The score vector of the forward pass on the fully preprocessed image
(defined so that statements can name it without destructing `transform`). -/
def modelOutput (fwd : BTensor → List Rat) (img : PILImage) : List Rat :=
  fwd (unsqueeze (normalizeOk meanConsts stdConsts (pipelineTensor img)))

/-- The whole handler on raw payload bytes: `Image.open` (the decoder `dec`
models the external PIL codec; `none` is its `UnidentifiedImageError`),
then the rest of the body.  There is no try/except anywhere: a decode
failure leaves the handler as a raised exception. -/
def predict (dec : List Nat → Option PILImage) (fwd : BTensor → List Rat)
    (payload : List Nat) : HandlerResult :=
  match dec payload with
  | none => HandlerResult.raised PredictError.unidentifiedImage
  | some img => predictCore fwd img

/-- What the client sees for a handler outcome: the returned status for a
response, and status 500 for an exception that escaped the handler
(FastAPI default for unhandled exceptions). -/
def frameworkStatus : HandlerResult → Nat
  | HandlerResult.response s _ => s
  | HandlerResult.raised _ => 500

/-- Minimal concrete decoder with the interface contract of the external
PIL codec, used to instantiate concrete scenarios: the empty byte string
and any unrecognised bytes yield no image (PIL raises
`UnidentifiedImageError`); a recognised header `channels :: w :: h :: data`
with a plausible mode (1, 3 or 4 channels) and exactly `channels * w * h`
data bytes yields the corresponding pixel grid. -/
def pilDecode (bytes : List Nat) : Option PILImage :=
  match bytes with
  | c :: w :: h :: rest =>
    if (c = 1 ∨ c = 3 ∨ c = 4) ∧ 0 < w ∧ 0 < h ∧ rest.length = c * w * h then
      some { width := w, height := h, channels := c
             px := fun ch y x => rest.getD ((ch * h + y) * w + x) 0 }
    else none
  | _ => none

/-- The multipart file object the framework hands to the handler. -/
structure UploadFile where
  filename : String
  contentType : String
  data : List Nat

/-- `await file.read()`: the payload bytes of the upload. -/
def readUpload (f : UploadFile) : List Nat := f.data

/-- The handler as invoked by the framework: it reads the upload bytes and
touches no other field of the file object. -/
def predictUpload (dec : List Nat → Option PILImage)
    (fwd : BTensor → List Rat) (f : UploadFile) : HandlerResult :=
  predict dec fwd (readUpload f)

/-- Process-wide server state: the model loaded at module import
(`models.resnet18(pretrained=True)`, an opaque scorer) and its mode flag
(`model.eval()`). -/
structure ServerState where
  forward : BTensor → List Rat
  evalMode : Bool

/-- Process bootstrap: load the pretrained model once and put it in
evaluation mode. -/
def startup (pretrained : BTensor → List Rat) : ServerState :=
  { forward := pretrained, evalMode := true }

/-- One request against the server state: the handler reads the shared
model and performs no assignment to it (the body only ever reads
`model` under `torch.no_grad()`), so the state comes back unchanged. -/
def predictSt (dec : List Nat → Option PILImage) (s : ServerState)
    (payload : List Nat) : HandlerResult × ServerState :=
  (predict dec s.forward payload, s)

/-- Serve a sequence of requests one after the other, threading the server
state. -/
def serveAll (dec : List Nat → Option PILImage) (s : ServerState) :
    List (List Nat) → ServerState
  | [] => s
  | p :: ps => serveAll dec (predictSt dec s p).2 ps

/-- Sample 1-by-1 RGB image (what a valid one-pixel RGB file decodes to). -/
def rgb1 : PILImage :=
  { width := 1, height := 1, channels := 3, px := fun _ _ _ => 128 }

/-- Sample 1-by-1 grayscale image (what a valid one-pixel mode-L file
decodes to). -/
def gray1 : PILImage :=
  { width := 1, height := 1, channels := 1, px := fun _ _ _ => 7 }

/-- Constant scorer used to instantiate the opaque forward pass. -/
def fwd1 : BTensor → List Rat := fun _ => [1]

/-- Scorer with a tied maximum, to exercise the arg-max tie-break. -/
def fwd2 : BTensor → List Rat := fun _ => [1, 3, 3, 2]

/-- The tensor the pipeline produces on `rgb1`. -/
def rgb1T : TVTensor :=
  ((transform rgb1).toOption).getD (toTensor rgb1)

/-- The image `pilDecode` yields on a concrete one-pixel RGB payload. -/
def rgbPayloadImg : PILImage :=
  (pilDecode [3, 1, 1, 10, 20, 30]).getD rgb1

/-! Helper lemmas shared by the claim theorems. -/

/-- Resizing keeps the channel count. -/
lemma resize_channels (size : Nat) (img : PILImage) :
    (resize size img).channels = img.channels := by
  unfold resize
  split <;> rfl

/-- The total pipeline prefix keeps the channel count of the source. -/
lemma pipeline_channels (img : PILImage) :
    (pipelineTensor img).channels = img.channels := by
  unfold pipelineTensor toTensor centerCrop
  simpa using resize_channels 256 img

/-- On a three-channel image the composed transform succeeds with the
normalized pipeline tensor. -/
lemma transform_ok (img : PILImage) (hch : img.channels = 3) :
    transform img =
      Except.ok (normalizeOk meanConsts stdConsts (pipelineTensor img)) := by
  unfold transform normalizeT
  rw [if_pos]
  rw [pipeline_channels, hch]
  rfl

/-- On an image whose channel count is not three the composed transform
fails with the broadcast error of `Normalize`. -/
lemma transform_err (img : PILImage) (hch : img.channels ≠ 3) :
    transform img =
      Except.error (PredictError.normalizeBroadcast img.channels) := by
  unfold transform normalizeT
  rw [pipeline_channels, if_neg]
  simpa using hch

/-- When the transform succeeds and the scorer returns a nonempty vector,
the handler body answers 200 with the first-occurrence arg-max. -/
lemma predictCore_ok (fwd : BTensor → List Rat) (img : PILImage)
    (hch : img.channels = 3) (hne : modelOutput fwd img ≠ []) :
    predictCore fwd img =
      HandlerResult.response 200 (argmaxIdx (modelOutput fwd img)) := by
  unfold predictCore
  rw [transform_ok img hch]
  have hfalse : (modelOutput fwd img).isEmpty = false := by
    cases h : modelOutput fwd img with
    | nil => exact absurd h hne
    | cons a as => rfl
  simp only [modelOutput] at hfalse ⊢
  rw [hfalse]
  rfl

/-- The arg-max index stays inside the vector. -/
lemma argmaxIdx_lt_length (l : List Rat) (h : l ≠ []) :
    argmaxIdx l < l.length := by
  induction l with
  | nil => exact absurd rfl h
  | cons x xs ih =>
    cases xs with
    | nil => simp [argmaxIdx]
    | cons y t =>
      rw [argmaxIdx]
      have h2 := ih (by simp)
      split
      · simpa using h2
      · simp

/-- Every entry is bounded by the entry at the arg-max index. -/
lemma argmaxIdx_le (l : List Rat) (j : Nat) (hj : j < l.length) :
    l.getD j 0 ≤ l.getD (argmaxIdx l) 0 := by
  induction l generalizing j with
  | nil => simp at hj
  | cons x xs ih =>
    cases xs with
    | nil =>
      cases j with
      | zero => simp [argmaxIdx]
      | succ k => simp at hj
    | cons y t =>
      rw [argmaxIdx]
      split
      · rename_i hlt
        rw [List.getD_cons_succ]
        cases j with
        | zero =>
          rw [List.getD_cons_zero]
          exact le_of_lt hlt
        | succ k =>
          rw [List.getD_cons_succ]
          exact ih k (by simpa using hj)
      · rename_i hge
        rw [List.getD_cons_zero]
        cases j with
        | zero => rw [List.getD_cons_zero]
        | succ k =>
          rw [List.getD_cons_succ]
          have hk : (y :: t).getD k 0 ≤ (y :: t).getD (argmaxIdx (y :: t)) 0 :=
            ih k (by simpa using hj)
          have := le_of_not_lt hge
          exact le_trans hk this

/-- Every entry strictly before the arg-max index is strictly below the
entry at the arg-max index: ties break to the lowest index. -/
lemma argmaxIdx_first (l : List Rat) (j : Nat) (hj : j < argmaxIdx l) :
    l.getD j 0 < l.getD (argmaxIdx l) 0 := by
  induction l generalizing j with
  | nil => simp [argmaxIdx] at hj
  | cons x xs ih =>
    cases xs with
    | nil => simp [argmaxIdx] at hj
    | cons y t =>
      rw [argmaxIdx] at hj ⊢
      split
      · rename_i hlt
        rw [List.getD_cons_succ]
        rw [if_pos hlt] at hj
        cases j with
        | zero =>
          rw [List.getD_cons_zero]
          exact hlt
        | succ k =>
          rw [List.getD_cons_succ]
          exact ih k (Nat.lt_of_succ_lt_succ hj)
      · rename_i hge
        rw [if_neg hge] at hj
        simp at hj

/-- Resizing the shorter edge of a nonempty image to 256 leaves both edges
at least 256, the shorter one exactly 256. -/
lemma resize_min_256 (img : PILImage) (hw : 0 < img.width)
    (hh : 0 < img.height) :
    min (resize 256 img).width (resize 256 img).height = 256 := by
  unfold resize
  split
  · rename_i hwh
    have h256 : 256 ≤ 256 * img.height / img.width :=
      (Nat.le_div_iff_mul_le hw).mpr
        (by calc 256 * img.width ≤ 256 * img.height :=
              Nat.mul_le_mul_left 256 hwh)
    exact Nat.min_eq_left h256
  · rename_i hwh
    have hhw : img.height ≤ img.width := le_of_lt (lt_of_not_le hwh)
    have h256 : 256 ≤ 256 * img.width / img.height :=
      (Nat.le_div_iff_mul_le hh).mpr
        (by calc 256 * img.height ≤ 256 * img.width :=
              Nat.mul_le_mul_left 256 hhw)
    exact Nat.min_eq_right h256

/-- Serving any request leaves the threaded server state untouched. -/
lemma serveAll_id (dec : List Nat → Option PILImage)
    (ps : List (List Nat)) (s : ServerState) : serveAll dec s ps = s := by
  induction ps generalizing s with
  | nil => rfl
  | cons p ps ih =>
    rw [serveAll]
    exact ih s

/-! Claim theorems. -/

/-- Claim C1 (corrected): a decode failure — empty payload or non-image
bytes — is not handled inside the handler at all: `Image.open` raises, the
exception escapes `predict`, and the framework surfaces status 500, not a
handler-built 4xx `DecodeError` response. -/
theorem c1_decode_failure_escapes (dec : List Nat → Option PILImage)
    (fwd : BTensor → List Rat) (payload : List Nat)
    (h : dec payload = none) :
    predict dec fwd payload =
      HandlerResult.raised PredictError.unidentifiedImage ∧
    frameworkStatus (predict dec fwd payload) = 500 := by
  unfold predict
  rw [h]
  exact ⟨rfl, rfl⟩

/-- Claim C1 counterexample: on the empty payload the handler returns no
response at all — the exception escapes it and the client sees 500, not a
4xx JSON error body produced in the handler. -/
theorem c1_counterexample :
    predict pilDecode fwd1 [] =
      HandlerResult.raised PredictError.unidentifiedImage ∧
    frameworkStatus (predict pilDecode fwd1 []) = 500 :=
  ⟨rfl, rfl⟩

/-- Claim C1 witness: the amended theorem applied to a concrete one-byte
non-image payload. -/
theorem c1_witness :
    predict pilDecode fwd1 [0] =
      HandlerResult.raised PredictError.unidentifiedImage ∧
    frameworkStatus (predict pilDecode fwd1 [0]) = 500 :=
  c1_decode_failure_escapes pilDecode fwd1 [0] rfl

/-- Claim C2 counterexample: on a one-pixel RGB source image the handler
returns a normal 200 prediction; no `PreprocessError` rejection of tiny
images exists in the code. -/
theorem c2_counterexample :
    predictCore fwd1 rgb1 = HandlerResult.response 200 0 := rfl

/-- Claim C2 (amended): every RGB source image, however small (including
one pixel), passes the pipeline: the resize step upsamples the shorter
edge to 256, the center-crop yields 224 by 224, and the handler returns a
normal prediction — the code defines no `PreprocessError` and never
rejects small images. -/
theorem c2_small_image_upsampled (fwd : BTensor → List Rat)
    (img : PILImage) (hch : img.channels = 3) (hw : 0 < img.width)
    (hh : 0 < img.height) (hne : modelOutput fwd img ≠ []) :
    min (resize 256 img).width (resize 256 img).height = 256 ∧
    (centerCrop 224 (resize 256 img)).width = 224 ∧
    (centerCrop 224 (resize 256 img)).height = 224 ∧
    predictCore fwd img =
      HandlerResult.response 200 (argmaxIdx (modelOutput fwd img)) :=
  ⟨resize_min_256 img hw hh, rfl, rfl, predictCore_ok fwd img hch hne⟩

/-- Claim C2 witness: the amended theorem at the one-pixel RGB image and a
concrete scorer. -/
theorem c2_witness :
    min (resize 256 rgb1).width (resize 256 rgb1).height = 256 ∧
    (centerCrop 224 (resize 256 rgb1)).width = 224 ∧
    (centerCrop 224 (resize 256 rgb1)).height = 224 ∧
    predictCore fwd1 rgb1 =
      HandlerResult.response 200 (argmaxIdx (modelOutput fwd1 rgb1)) :=
  c2_small_image_upsampled fwd1 rgb1 rfl (by decide) (by decide) (by decide)

/-- Claim C3 (confirmed): the handler is deterministic — a second call on a
byte-identical payload, against the state left behind by the first call,
returns the identical result; the result is a pure function of the payload
bytes and the loaded model, and each call leaves the server state
unchanged. -/
theorem c3_deterministic (dec : List Nat → Option PILImage)
    (s : ServerState) (p : List Nat) :
    (predictSt dec (predictSt dec s p).2 p).1 = (predictSt dec s p).1 ∧
    (predictSt dec s p).1 = predict dec s.forward p ∧
    (predictSt dec s p).2 = s :=
  ⟨rfl, rfl, rfl⟩

/-- Claim C4 (confirmed): on the score vector produced by the forward pass
the handler answers with the first-occurrence arg-max index: the score
there is maximal over the whole vector and every strictly earlier index
scores strictly lower, so ties break to the lowest index. -/
theorem c4_argmax_lowest_index (fwd : BTensor → List Rat) (img : PILImage)
    (hch : img.channels = 3) (hne : modelOutput fwd img ≠ []) :
    predictCore fwd img =
      HandlerResult.response 200 (argmaxIdx (modelOutput fwd img)) ∧
    argmaxIdx (modelOutput fwd img) < (modelOutput fwd img).length ∧
    (∀ j, j < (modelOutput fwd img).length →
      (modelOutput fwd img).getD j 0 ≤
        (modelOutput fwd img).getD (argmaxIdx (modelOutput fwd img)) 0) ∧
    (∀ j, j < argmaxIdx (modelOutput fwd img) →
      (modelOutput fwd img).getD j 0 <
        (modelOutput fwd img).getD (argmaxIdx (modelOutput fwd img)) 0) :=
  ⟨predictCore_ok fwd img hch hne, argmaxIdx_lt_length _ hne,
   fun j hj => argmaxIdx_le _ j hj, fun j hj => argmaxIdx_first _ j hj⟩

/-- Claim C4 witness: at a concrete scorer with a tied maximum (scores
1, 3, 3, 2) the handler returns index 1 — the first of the two tied
maxima — and the score at index 0 is strictly below it. -/
theorem c4_witness :
    predictCore fwd2 rgb1 = HandlerResult.response 200 1 ∧
    argmaxIdx (modelOutput fwd2 rgb1) = 1 ∧
    (modelOutput fwd2 rgb1).getD 0 0 < (modelOutput fwd2 rgb1).getD 1 0 := by
  have h := c4_argmax_lowest_index fwd2 rgb1 rfl (by decide)
  have hidx : argmaxIdx (modelOutput fwd2 rgb1) = 1 := by decide
  refine ⟨?_, hidx, ?_⟩
  · rw [h.1, hidx]
  · have := h.2.2.2 0 (by decide)
    rwa [hidx] at this

/-- Claim C5 counterexample: the payload of a valid one-pixel grayscale
image decodes to a 1-channel grid, and on it the handler raises instead of
succeeding — so not every valid image payload yields a 200 with a class
index. -/
theorem c5_counterexample :
    predict pilDecode fwd1 [1, 1, 1, 7] =
      HandlerResult.raised (PredictError.normalizeBroadcast 1) := by
  decide

/-- Claim C5 (amended): every payload that decodes to a 3-channel RGB
image yields status 200 with the arg-max class index, which lies in
[0, N) for a scorer with N classes; payloads decoding to non-RGB images
fail instead. -/
theorem c5_rgb_payload_in_range (dec : List Nat → Option PILImage)
    (fwd : BTensor → List Rat) (payload : List Nat) (img : PILImage)
    (N : Nat) (hdec : dec payload = some img) (hch : img.channels = 3)
    (hN : (modelOutput fwd img).length = N) (hpos : 0 < N) :
    predict dec fwd payload =
      HandlerResult.response 200 (argmaxIdx (modelOutput fwd img)) ∧
    argmaxIdx (modelOutput fwd img) < N := by
  have hne : modelOutput fwd img ≠ [] := by
    intro h0
    rw [h0] at hN
    simp at hN
    omega
  constructor
  · unfold predict
    rw [hdec]
    exact predictCore_ok fwd img hch hne
  · have hlt := argmaxIdx_lt_length _ hne
    omega

/-- Claim C5 witness: the amended theorem at a concrete one-pixel RGB
payload and a concrete one-class scorer. -/
theorem c5_witness :
    predict pilDecode fwd1 [3, 1, 1, 10, 20, 30] =
      HandlerResult.response 200 (argmaxIdx (modelOutput fwd1 rgbPayloadImg)) ∧
    argmaxIdx (modelOutput fwd1 rgbPayloadImg) < 1 :=
  c5_rgb_payload_in_range pilDecode fwd1 [3, 1, 1, 10, 20, 30]
    rgbPayloadImg 1 rfl rfl rfl (by decide)

/-- Claim C6 (confirmed): whenever the transform succeeds, the batched
tensor has the fixed shape 1 by 3 by 224 by 224 — independent of the
request — and each value is (pixel / 255 - mean c) / std c of the
resized-and-cropped image, with the fixed constants. -/
theorem c6_tensor_shape_normalization (img : PILImage) (t : TVTensor)
    (h : transform img = Except.ok t) :
    (unsqueeze t).batch = 1 ∧ (unsqueeze t).channels = 3 ∧
    (unsqueeze t).height = 224 ∧ (unsqueeze t).width = 224 ∧
    ∀ b c y x, (unsqueeze t).px b c y x =
      ((centerCrop 224 (resize 256 img)).px c y x / 255 -
        meanConsts.getD c 0) / stdConsts.getD c 0 := by
  have hch : img.channels = 3 := by
    by_contra hne
    rw [transform_err img hne] at h
    exact Except.noConfusion h
  rw [transform_ok img hch] at h
  injection h with h2
  rw [← h2]
  refine ⟨rfl, ?_, rfl, rfl, ?_⟩
  · show (pipelineTensor img).channels = 3
    rw [pipeline_channels, hch]
  · intro b c y x
    rfl

/-- Claim C6 witness: the theorem at the one-pixel RGB image; the pipeline
tensor has the fixed shape and the value at the origin of channel 0 obeys
the normalization formula. -/
theorem c6_witness :
    transform rgb1 = Except.ok rgb1T ∧
    (unsqueeze rgb1T).batch = 1 ∧ (unsqueeze rgb1T).channels = 3 ∧
    (unsqueeze rgb1T).height = 224 ∧ (unsqueeze rgb1T).width = 224 ∧
    (unsqueeze rgb1T).px 0 0 0 0 =
      ((centerCrop 224 (resize 256 rgb1)).px 0 0 0 / 255 -
        meanConsts.getD 0 0) / stdConsts.getD 0 0 := by
  have hok : transform rgb1 = Except.ok rgb1T := rfl
  have h := c6_tensor_shape_normalization rgb1 rgb1T hok
  exact ⟨hok, h.1, h.2.1, h.2.2.1, h.2.2.2.1, h.2.2.2.2 0 0 0 0⟩

/-- Claim C7 (confirmed): the model is loaded exactly once at startup and
put in evaluation mode; serving any sequence of requests leaves the server
state — the loaded weights and the mode flag — exactly as bootstrap left
it, so no request ever mutates shared model state or re-loads the
model. -/
theorem c7_model_state_immutable (dec : List Nat → Option PILImage)
    (pretrained : BTensor → List Rat) (ps : List (List Nat)) :
    serveAll dec (startup pretrained) ps = startup pretrained ∧
    (startup pretrained).forward = pretrained ∧
    (startup pretrained).evalMode = true :=
  ⟨serveAll_id dec ps (startup pretrained), rfl, rfl⟩

/-- Claim C9 (confirmed): the handler reads only the uploaded bytes; two
uploads with identical bytes but different filenames and declared content
types produce the identical outcome. -/
theorem c9_depends_only_on_bytes (dec : List Nat → Option PILImage)
    (fwd : BTensor → List Rat) (bytes : List Nat)
    (fn1 ct1 fn2 ct2 : String) :
    predictUpload dec fwd ⟨fn1, ct1, bytes⟩ =
      predictUpload dec fwd ⟨fn2, ct2, bytes⟩ := rfl

/-- Claim C10 (confirmed): a decoded image with 1 channel (grayscale) or 4
channels (RGBA) never produces a prediction: the pipeline has no RGB
conversion, so `Normalize` raises its broadcast error and the handler
raises. -/
theorem c10_non_rgb_fails (fwd : BTensor → List Rat) (img : PILImage)
    (h : img.channels = 1 ∨ img.channels = 4) :
    predictCore fwd img =
      HandlerResult.raised (PredictError.normalizeBroadcast img.channels) := by
  have hne : img.channels ≠ 3 := by rcases h with h | h <;> omega
  unfold predictCore
  rw [transform_err img hne]

/-- Claim C10 witness: the theorem at the one-pixel grayscale image. -/
theorem c10_witness :
    predictCore fwd1 gray1 =
      HandlerResult.raised (PredictError.normalizeBroadcast 1) :=
  c10_non_rgb_fails fwd1 gray1 (Or.inl rfl)

end MLDeploy
